import Mathlib

/-!
Verification of the custom-mesh specification and mesh-validation core
(`src/core/SkCustomMesh.cpp`): a shallow embedding of the layout validator,
identifier check, shader-source synthesis, the specification-construction
pipeline (with the external SkSL compiler treated as an oracle), the
specification identity hash, and mesh validation with overflow-checked
arithmetic; followed by theorems about these definitions.
-/

namespace SkCM

/-- Modelled from the spec: the compile-time constants live in
`include/core/SkCustomMesh.h`, which is not part of the sources here; the
spec pins `kMaxAttributes ≤ 8`, `kMaxVaryings ≤ 6`, `kMaxStride ≤ 2048`,
`kStrideAlignment ≥ 4`, `kOffsetAlignment ≥ 4`, and the `.cpp` statically
asserts the same bounds plus that `kStrideAlignment` is a power of two.
We use the boundary values, which are the values in the real header. -/
def kMaxAttributes : Nat := 8

def kMaxVaryings : Nat := 6

def kMaxStride : Nat := 2048

def kStrideAlignment : Nat := 4

def kOffsetAlignment : Nat := 4

/-- Attribute data types (enum `SkCustomMeshSpecification::Attribute::Type`). -/
inductive AttrType where
  | kFloat
  | kFloat2
  | kFloat3
  | kFloat4
  | kUByte4_unorm
deriving DecidableEq, Repr

/-- Varying data types (enum `SkCustomMeshSpecification::Varying::Type`). -/
inductive VaryType where
  | kFloat
  | kFloat2
  | kFloat3
  | kFloat4
  | kHalf
  | kHalf2
  | kHalf3
  | kHalf4
deriving DecidableEq, Repr

/-- One per-vertex attribute: CPU type, byte offset, identifier. -/
structure Attribute where
  type : AttrType
  offset : Nat
  name : String
deriving DecidableEq, Repr

/-- One varying passed from the vertex stage to the fragment stage. -/
structure Varying where
  type : VaryType
  name : String
deriving DecidableEq, Repr

/-- `attribute_type_size`: byte size of each attribute type. -/
def attribute_type_size : AttrType → Nat
  | .kFloat => 4
  | .kFloat2 => 2 * 4
  | .kFloat3 => 3 * 4
  | .kFloat4 => 4 * 4
  | .kUByte4_unorm => 4

/-- `attribute_type_string`: the SkSL spelling of each attribute type
(`kUByte4_unorm` becomes the GPU type `half4`). -/
def attribute_type_string : AttrType → String
  | .kFloat => "float"
  | .kFloat2 => "float2"
  | .kFloat3 => "float3"
  | .kFloat4 => "float4"
  | .kUByte4_unorm => "half4"

/-- `varying_type_string`: the SkSL spelling of each varying type. -/
def varying_type_string : VaryType → String
  | .kFloat => "float"
  | .kFloat2 => "float2"
  | .kFloat3 => "float3"
  | .kFloat4 => "float4"
  | .kHalf => "half"
  | .kHalf2 => "half2"
  | .kHalf3 => "half3"
  | .kHalf4 => "half4"

/-- `check_name`: a non-exhaustive identifier check — non-empty and every
character is `_` or ASCII alphanumeric (`std::isalnum` in the classic
locale). -/
def check_name (name : String) : Bool :=
  !name.isEmpty && name.toList.all fun c => c == '_' || c.isAlphanum

/-- The per-attribute loop of `check_vertex_offsets_and_stride`: offset
alignment via the power-of-two mask, then `offset >= stride ||
offset + size > stride` (the first comparison avoids overflow in the
second). -/
def check_attributes_loop (stride : Nat) : List Attribute → Bool × String
  | [] => (true, "")
  | a :: rest =>
    if a.offset &&& (kOffsetAlignment - 1) != 0 then
      (false, "Attribute offset must be a multiple of " ++ toString kOffsetAlignment ++ ".")
    else if a.offset ≥ stride || a.offset + attribute_type_size a.type > stride then
      (false, "Attribute offset plus size cannot exceed stride.")
    else
      check_attributes_loop stride rest

/-- `check_vertex_offsets_and_stride`: layout validation of the attribute
list and stride, returning `(ok, errorMessage)`. -/
def check_vertex_offsets_and_stride (attributes : List Attribute) (stride : Nat) :
    Bool × String :=
  if attributes.isEmpty then
    (false, "At least 1 attribute is required.")
  else if attributes.length > kMaxAttributes then
    (false, "A maximum of " ++ toString kMaxAttributes ++ " attributes is allowed.")
  else if stride == 0 || stride &&& (kStrideAlignment - 1) != 0 then
    (false, "Vertex stride must be a non-zero multiple of " ++ toString kStrideAlignment ++ ".")
  else if stride > kMaxStride then
    (false, "Stride cannot exceed " ++ toString kMaxStride ++ ".")
  else
    check_attributes_loop stride attributes

/-- The layout rule satisfied by a single attribute, as the spec states it. -/
def AttrOK (stride : Nat) (a : Attribute) : Prop :=
  a.offset % kOffsetAlignment = 0 ∧ a.offset < stride ∧
    a.offset + attribute_type_size a.type ≤ stride

instance (stride : Nat) (a : Attribute) : Decidable (AttrOK stride a) := by
  unfold AttrOK; infer_instance

lemma and_three_eq_mod_four (x : Nat) : x &&& 3 = x % 4 := by
  have h := Nat.and_pow_two_sub_one_eq_mod x 2
  norm_num at h
  exact h

lemma stride_cond_iff (stride : Nat) :
    (stride == 0 || stride &&& (kStrideAlignment - 1) != 0) = true ↔
      (stride = 0 ∨ stride % kStrideAlignment ≠ 0) := by
  simp only [Bool.or_eq_true, beq_iff_eq, bne_iff_ne, ne_eq, kStrideAlignment]
  rw [and_three_eq_mod_four]

lemma offset_align_cond_iff (x : Nat) :
    (x &&& (kOffsetAlignment - 1) != 0) = true ↔ x % kOffsetAlignment ≠ 0 := by
  simp only [bne_iff_ne, ne_eq, kOffsetAlignment]
  rw [and_three_eq_mod_four]

lemma check_attributes_loop_true_iff (stride : Nat) (attrs : List Attribute) :
    (check_attributes_loop stride attrs).1 = true ↔ ∀ a ∈ attrs, AttrOK stride a := by
  induction attrs with
  | nil => simp [check_attributes_loop]
  | cons a rest ih =>
    unfold check_attributes_loop
    by_cases hal : (a.offset &&& (kOffsetAlignment - 1) != 0) = true
    · rw [if_pos hal]
      simp only [bne_iff_ne, ne_eq, kOffsetAlignment] at hal
      rw [and_three_eq_mod_four] at hal
      constructor
      · intro h; cases h
      · intro h
        exact absurd (h a (List.mem_cons_self a rest)).1 hal
    · rw [if_neg hal]
      by_cases hrange :
          (a.offset ≥ stride || a.offset + attribute_type_size a.type > stride) = true
      · rw [if_pos hrange]
        simp only [Bool.or_eq_true, decide_eq_true_eq] at hrange
        constructor
        · intro h; cases h
        · intro h
          have hA := h a (List.mem_cons_self a rest)
          rcases hrange with hge | hgt
          · exact absurd hA.2.1 (not_lt.mpr hge)
          · exact absurd hA.2.2 (not_le.mpr hgt)
      · rw [if_neg hrange]
        rw [ih]
        simp only [Bool.or_eq_true, decide_eq_true_eq, not_or, not_le, not_lt] at hrange
        simp only [bne_iff_ne, ne_eq, not_not, kOffsetAlignment] at hal
        rw [and_three_eq_mod_four] at hal
        constructor
        · intro h b hb
          rcases List.mem_cons.mp hb with hb | hb
          · subst hb; exact ⟨hal, hrange.1, hrange.2⟩
          · exact h b hb
        · intro h b hb
          exact h b (List.mem_cons_of_mem a hb)

lemma check_attributes_loop_msg_align (stride : Nat) (pre : List Attribute) (a : Attribute)
    (post : List Attribute) (hpre : ∀ b ∈ pre, AttrOK stride b)
    (ha : a.offset % kOffsetAlignment ≠ 0) :
    check_attributes_loop stride (pre ++ a :: post) =
      (false, "Attribute offset must be a multiple of " ++ toString kOffsetAlignment ++ ".") := by
  induction pre with
  | nil =>
    simp only [List.nil_append]
    unfold check_attributes_loop
    rw [if_pos]
    simp only [bne_iff_ne, ne_eq, kOffsetAlignment]
    rw [and_three_eq_mod_four]
    simpa [kOffsetAlignment] using ha
  | cons b rest ih =>
    have hb := hpre b (List.mem_cons_self b rest)
    simp only [List.cons_append]
    unfold check_attributes_loop
    rw [if_neg, if_neg]
    · exact ih fun c hc => hpre c (List.mem_cons_of_mem b hc)
    · simp only [Bool.or_eq_true, decide_eq_true_eq, not_or, not_le, not_lt]
      exact ⟨hb.2.1, hb.2.2⟩
    · simp only [bne_iff_ne, ne_eq, not_not, kOffsetAlignment]
      rw [and_three_eq_mod_four]
      simpa [kOffsetAlignment] using hb.1

lemma check_attributes_loop_msg_range (stride : Nat) (pre : List Attribute) (a : Attribute)
    (post : List Attribute) (hpre : ∀ b ∈ pre, AttrOK stride b)
    (hal : a.offset % kOffsetAlignment = 0)
    (ha : ¬(a.offset < stride ∧ a.offset + attribute_type_size a.type ≤ stride)) :
    check_attributes_loop stride (pre ++ a :: post) =
      (false, "Attribute offset plus size cannot exceed stride.") := by
  induction pre with
  | nil =>
    simp only [List.nil_append]
    unfold check_attributes_loop
    rw [if_neg, if_pos]
    · simp only [Bool.or_eq_true, decide_eq_true_eq]
      rcases not_and_or.mp ha with h | h
      · exact Or.inl (not_lt.mp h)
      · exact Or.inr (not_le.mp h)
    · simp only [bne_iff_ne, ne_eq, not_not, kOffsetAlignment]
      rw [and_three_eq_mod_four]
      simpa [kOffsetAlignment] using hal
  | cons b rest ih =>
    have hb := hpre b (List.mem_cons_self b rest)
    simp only [List.cons_append]
    unfold check_attributes_loop
    rw [if_neg, if_neg]
    · exact ih fun c hc => hpre c (List.mem_cons_of_mem b hc)
    · simp only [Bool.or_eq_true, decide_eq_true_eq, not_or, not_le, not_lt]
      exact ⟨hb.2.1, hb.2.2⟩
    · simp only [bne_iff_ne, ne_eq, not_not, kOffsetAlignment]
      rw [and_three_eq_mod_four]
      simpa [kOffsetAlignment] using hb.1

/-- **C1.** `check_vertex_offsets_and_stride` returns Ok exactly when the
attribute list is non-empty and has at most `kMaxAttributes` entries, the
stride is a non-zero multiple of `kStrideAlignment` not exceeding
`kMaxStride`, and every attribute's offset is `kOffsetAlignment`-aligned,
less than the stride, and fits (`offset + size ≤ stride`); moreover the
rules are checked in that order and the first failing rule determines the
error message (for the per-attribute rules, the first attribute that fails,
with its alignment checked before its range). -/
theorem C1_check_vertex_offsets_and_stride_iff (attributes : List Attribute) (stride : Nat) :
    ((check_vertex_offsets_and_stride attributes stride).1 = true ↔
      (attributes ≠ [] ∧ attributes.length ≤ kMaxAttributes ∧
        stride ≠ 0 ∧ stride % kStrideAlignment = 0 ∧ stride ≤ kMaxStride ∧
        ∀ a ∈ attributes, AttrOK stride a)) ∧
    (attributes = [] →
      (check_vertex_offsets_and_stride attributes stride).2 =
        "At least 1 attribute is required.") ∧
    (attributes ≠ [] → attributes.length > kMaxAttributes →
      (check_vertex_offsets_and_stride attributes stride).2 =
        "A maximum of 8 attributes is allowed.") ∧
    (attributes ≠ [] → attributes.length ≤ kMaxAttributes →
      (stride = 0 ∨ stride % kStrideAlignment ≠ 0) →
      (check_vertex_offsets_and_stride attributes stride).2 =
        "Vertex stride must be a non-zero multiple of 4.") ∧
    (attributes ≠ [] → attributes.length ≤ kMaxAttributes →
      stride ≠ 0 → stride % kStrideAlignment = 0 → stride > kMaxStride →
      (check_vertex_offsets_and_stride attributes stride).2 =
        "Stride cannot exceed 2048.") ∧
    (∀ pre a post, attributes = pre ++ a :: post →
      attributes.length ≤ kMaxAttributes →
      stride ≠ 0 → stride % kStrideAlignment = 0 → stride ≤ kMaxStride →
      (∀ b ∈ pre, AttrOK stride b) → a.offset % kOffsetAlignment ≠ 0 →
      (check_vertex_offsets_and_stride attributes stride).2 =
        "Attribute offset must be a multiple of 4.") ∧
    (∀ pre a post, attributes = pre ++ a :: post →
      attributes.length ≤ kMaxAttributes →
      stride ≠ 0 → stride % kStrideAlignment = 0 → stride ≤ kMaxStride →
      (∀ b ∈ pre, AttrOK stride b) → a.offset % kOffsetAlignment = 0 →
      ¬(a.offset < stride ∧ a.offset + attribute_type_size a.type ≤ stride) →
      (check_vertex_offsets_and_stride attributes stride).2 =
        "Attribute offset plus size cannot exceed stride.") := by
  refine ⟨?_, ?_, ?_, ?_, ?_, ?_, ?_⟩
  · unfold check_vertex_offsets_and_stride
    by_cases hempty : attributes.isEmpty = true
    · rw [if_pos hempty]
      rw [List.isEmpty_iff] at hempty
      simp [hempty]
    · rw [if_neg hempty]
      rw [List.isEmpty_iff] at hempty
      by_cases hcount : attributes.length > kMaxAttributes
      · rw [if_pos hcount]
        simp [hempty, not_le.mpr hcount]
      · rw [if_neg hcount]
        by_cases hsz : (stride == 0 || stride &&& (kStrideAlignment - 1) != 0) = true
        · rw [if_pos hsz]
          rw [stride_cond_iff] at hsz
          refine iff_of_false (by decide) ?_
          rintro ⟨-, -, h0, h4, -, -⟩
          rcases hsz with h | h
          · exact absurd h h0
          · exact absurd h4 h
        · rw [if_neg hsz]
          rw [stride_cond_iff, not_or, not_not] at hsz
          by_cases hmax : stride > kMaxStride
          · rw [if_pos hmax]
            simp [hempty, hsz.1, hsz.2, not_le.mpr hmax]
          · rw [if_neg hmax]
            rw [check_attributes_loop_true_iff]
            simp [hempty, not_lt.mp hcount, hsz.1, hsz.2, not_lt.mp hmax]
  · intro hempty
    subst hempty
    rfl
  · intro hempty hcount
    unfold check_vertex_offsets_and_stride
    rw [if_neg (by simpa [List.isEmpty_iff] using hempty), if_pos hcount]
    rfl
  · intro hempty hcount hsz
    unfold check_vertex_offsets_and_stride
    rw [if_neg (by simpa [List.isEmpty_iff] using hempty), if_neg (not_lt.mpr hcount),
      if_pos ((stride_cond_iff stride).mpr hsz)]
    rfl
  · intro hempty hcount h0 h4 hmax
    unfold check_vertex_offsets_and_stride
    rw [if_neg (by simpa [List.isEmpty_iff] using hempty), if_neg (not_lt.mpr hcount),
      if_neg (fun hc => by rcases (stride_cond_iff stride).mp hc with h | h
                           exacts [h0 h, h h4]),
      if_pos hmax]
    rfl
  · intro pre a post hsplit hcount h0 h4 hmax hpre hal
    have hempty : attributes ≠ [] := by
      subst hsplit; simp
    unfold check_vertex_offsets_and_stride
    rw [if_neg (by simpa [List.isEmpty_iff] using hempty), if_neg (not_lt.mpr hcount),
      if_neg (fun hc => by rcases (stride_cond_iff stride).mp hc with h | h
                           exacts [h0 h, h h4]),
      if_neg (not_lt.mpr hmax), hsplit,
      check_attributes_loop_msg_align stride pre a post hpre hal]
    rfl
  · intro pre a post hsplit hcount h0 h4 hmax hpre hal hrange
    have hempty : attributes ≠ [] := by
      subst hsplit; simp
    unfold check_vertex_offsets_and_stride
    rw [if_neg (by simpa [List.isEmpty_iff] using hempty), if_neg (not_lt.mpr hcount),
      if_neg (fun hc => by rcases (stride_cond_iff stride).mp hc with h | h
                           exacts [h0 h, h h4]),
      if_neg (not_lt.mpr hmax), hsplit,
      check_attributes_loop_msg_range stride pre a post hpre hal hrange]

/-- Witness for C1 at a concrete input: one float2 attribute at offset 4
with stride 12 validates. -/
theorem C1_check_vertex_offsets_and_stride_iff_witness :
    (check_vertex_offsets_and_stride [⟨AttrType.kFloat2, 4, "pos"⟩] 12).1 = true :=
  ((C1_check_vertex_offsets_and_stride_iff [⟨AttrType.kFloat2, 4, "pos"⟩] 12).1).mpr
    (by refine ⟨by decide, by decide, by decide, by decide, by decide, ?_⟩
        intro a ha
        simp only [List.mem_singleton] at ha
        subst ha
        decide)

/-! ## SkSL programs and the compiler oracle -/

/-- The SkSL types that `get_fs_color_type_and_local_coords` distinguishes
(`fContext->fTypes.fVoid/fFloat2/fHalf4/fFloat4`); every other type is
`tOther`. `Type::matches` is equality here. -/
inductive SkSLType where
  | tVoid
  | tFloat2
  | tHalf4
  | tFloat4
  | tOther (id : Nat)
deriving DecidableEq, Repr

/-- An `SkSL::FunctionDeclaration`: its name, parameter types and return
type. `isMain` is name-based, as in SkSL. -/
structure FunctionDecl where
  name : String
  params : List SkSLType
  returnType : SkSLType
deriving DecidableEq, Repr

def FunctionDecl.isMain (d : FunctionDecl) : Bool :=
  d.name == "main"

/-- An `SkSL::ProgramElement`: a function definition or anything else. -/
inductive ProgramElement where
  | functionDefn (decl : FunctionDecl)
  | otherElement
deriving DecidableEq, Repr

/-- An `SkSL::Program` as this core observes it: its final source text,
its top-level elements, and the result of
`SkSL::Analysis::CallsColorTransformIntrinsics` (an opaque analysis,
recorded as a field of the oracle's output). -/
structure Program where
  source : String
  elements : List ProgramElement
  callsColorTransformIntrinsics : Bool
deriving DecidableEq, Repr

/-- Is this program element a function definition whose declaration is
`main`? (The loop body of `has_main`.) -/
def isMainDefn : ProgramElement → Bool
  | .functionDefn d => d.isMain
  | .otherElement => false

/-- `has_main`: does the program contain a function definition whose
declaration is `main`? -/
def has_main (p : Program) : Bool :=
  p.elements.any isMainDefn

/-- Derived fragment color types (`SkCustomMeshSpecificationPriv::ColorType`). -/
inductive ColorType where
  | kNone
  | kHalf4
  | kFloat4
deriving DecidableEq, Repr

/-- The element loop of `get_fs_color_type_and_local_coords`: at the first
`main` definition, the color type is `kNone` for one parameter, else
`kHalf4` when the second parameter's type matches `half4` and `kFloat4`
otherwise; local coords are present exactly when the return type matches
`float2`. An exhausted list is `SkUNREACHABLE` in the C++ (`none` here;
the call site guarantees `has_main`). -/
def get_fs_loop : List ProgramElement → Option (ColorType × Bool)
  | [] => none
  | .functionDefn d :: rest =>
    if d.isMain then
      let ct : ColorType :=
        if d.params.length = 1 then .kNone
        else if d.params.get? 1 == some .tHalf4 then .kHalf4
        else .kFloat4
      some (ct, d.returnType == .tFloat2)
    else get_fs_loop rest
  | .otherElement :: rest => get_fs_loop rest

/-- `get_fs_color_type_and_local_coords`. -/
def get_fs_color_type_and_local_coords (p : Program) : Option (ColorType × Bool) :=
  get_fs_loop p.elements

/-- SkSL program kinds used by this core. -/
inductive ProgramKind where
  | kCustomMeshVertex
  | kCustomMeshFragment
deriving DecidableEq, Repr

/-- Modelled from the spec: the external shading-language compiler is a
black box `compile(source, kind, settings) -> CompiledProgram | error`;
`convertProgram` returns either the compiled program or the compiler's
diagnostic text (`errorText`). ES2 restrictions are always enforced by
this core, so the settings are not a parameter. -/
structure Compiler where
  convertProgram : ProgramKind → String → Except String Program

/-! ## Color spaces, alpha types, the identity hash and Specification -/

/-- Modelled from the spec: a color space is an opaque handle exposing a
stable hash. -/
structure SkColorSpace where
  hash : Nat
deriving DecidableEq, Repr

/-- Modelled from the spec: the alpha-type enum, with its numeric codes. -/
inductive SkAlphaType where
  | kUnknown
  | kOpaque
  | kPremul
  | kUnpremul
deriving DecidableEq, Repr

def alphaTypeCode : SkAlphaType → Nat
  | .kUnknown => 0
  | .kOpaque => 1
  | .kPremul => 2
  | .kUnpremul => 3

/-- The numeric code of an attribute type, as fed to the hash. -/
def attrTypeCode : AttrType → Nat
  | .kFloat => 0
  | .kFloat2 => 1
  | .kFloat3 => 2
  | .kFloat4 => 3
  | .kUByte4_unorm => 4

/-- Modelled from the spec: `SkOpts::hash_fn` is an external structural
hashing primitive (an order-sensitive, non-cryptographic mixing hash over
bytes with a seed), out of scope for this core. We model the data as a
list of naturals and mix with a fixed 64-bit fold. -/
def hash_fn (data : List Nat) (seed : Nat) : Nat :=
  data.foldl (fun h b => ((h + b + 1) * 2654435761) % 2 ^ 64) seed

/-- The byte data of a string, as fed to the hash. -/
def stringData (s : String) : List Nat :=
  s.toList.map Char.toNat

/-- The color-space hash folded into the identity hash: the color space's
own hash, or zero when absent. -/
def csHashOf : Option SkColorSpace → Nat
  | some c => c.hash
  | none => 0

/-- The identity-hash computation of the `SkCustomMeshSpecification`
constructor: fold the vertex source, the fragment source, each attribute's
offset then type (in declaration order), the stride, the color-space hash
(zero when absent) and the alpha-type code, in that order. -/
def specificationHash (vsSource fsSource : String) (attributes : List Attribute)
    (stride : Nat) (cs : Option SkColorSpace) (alphaType : SkAlphaType) : Nat :=
  let h := hash_fn (stringData vsSource) 0
  let h := hash_fn (stringData fsSource) h
  let h := attributes.foldl (fun h a => hash_fn [attrTypeCode a.type] (hash_fn [a.offset] h)) h
  let h := hash_fn [stride] h
  let h := hash_fn [csHashOf cs] h
  hash_fn [alphaTypeCode alphaType] h

/-- An `SkCustomMeshSpecification`: the immutable value assembled by the
constructor, including the identity hash. -/
structure Specification where
  attributes : List Attribute
  varyings : List Varying
  vs : Program
  fs : Program
  stride : Nat
  colorType : ColorType
  hasLocalCoords : Bool
  colorSpace : Option SkColorSpace
  alphaType : SkAlphaType
  hash : Nat
deriving DecidableEq, Repr

/-- The `SkCustomMeshSpecification` constructor: stores its arguments and
computes the identity hash. -/
def Specification.construct (attributes : List Attribute) (stride : Nat)
    (varyings : List Varying) (vs fs : Program) (ct : ColorType) (hasLocalCoords : Bool)
    (cs : Option SkColorSpace) (alphaType : SkAlphaType) : Specification :=
  { attributes := attributes
    varyings := varyings
    vs := vs
    fs := fs
    stride := stride
    colorType := ct
    hasLocalCoords := hasLocalCoords
    colorSpace := cs
    alphaType := alphaType
    hash := specificationHash vs.source fs.source attributes stride cs alphaType }

/-! ## The specification-construction pipeline -/

/-- `SkCustomMeshSpecification::MakeFromSourceWithStructs`, parametric in
the compiler oracle: layout validation, attribute-name validation,
varying-count validation, varying-name validation, vertex compile (+ main
check + intrinsics check), fragment compile (+ main check + intrinsics
check), fragment-contract extraction, color-space/alpha-type fixing, and
construction. `Except.error` is the `{nullptr, message}` result. The
`none` arm of the contract extraction is `SkUNREACHABLE` in the C++; it is
provably dead (see `get_fs_some_of_has_main`). -/
def makeFromSourceWithStructs (compiler : Compiler) (attributes : List Attribute)
    (stride : Nat) (varyings : List Varying) (vs fs : String)
    (cs : Option SkColorSpace) (alphaType : SkAlphaType) : Except String Specification :=
  match check_vertex_offsets_and_stride attributes stride with
  | (false, error) => .error error
  | (true, _) =>
    match attributes.find? (fun a => !check_name a.name) with
    | some a => .error ("\"" ++ a.name ++ "\" is not a valid attribute name.")
    | none =>
      if varyings.length > kMaxVaryings then
        .error ("A maximum of " ++ toString kMaxVaryings ++ " varyings is allowed.")
      else
        match varyings.find? (fun v => !check_name v.name) with
        | some v => .error ("\"" ++ v.name ++ "\" is not a valid varying name.")
        | none =>
          match compiler.convertProgram .kCustomMeshVertex vs with
          | .error e => .error ("VS: " ++ e)
          | .ok vsProgram =>
            if !has_main vsProgram then
              .error "Vertex shader must have main function."
            else if vsProgram.callsColorTransformIntrinsics then
              .error "Color transform intrinsics are not permitted in custom mesh shaders"
            else
              match compiler.convertProgram .kCustomMeshFragment fs with
              | .error e => .error ("FS: " ++ e)
              | .ok fsProgram =>
                if !has_main fsProgram then
                  .error "Fragment shader must have main function."
                else if fsProgram.callsColorTransformIntrinsics then
                  .error "Color transform intrinsics are not permitted in custom mesh shaders"
                else
                  match get_fs_color_type_and_local_coords fsProgram with
                  | none => .error "unreachable"
                  | some (ct, hasLocalCoords) =>
                    if ct = ColorType.kNone then
                      .ok (Specification.construct attributes stride varyings
                            vsProgram fsProgram ct hasLocalCoords none .kPremul)
                    else
                      match cs with
                      | none => .error "Must provide a color space if FS returns a color."
                      | some cs0 =>
                        if alphaType = SkAlphaType.kUnknown then
                          .error "Must provide a valid alpha type if FS returns a color."
                        else
                          .ok (Specification.construct attributes stride varyings
                                vsProgram fsProgram ct hasLocalCoords (some cs0) alphaType)

/-- The `struct Attributes` declaration text built by
`SkCustomMeshSpecification::Make` (an `appendf` loop). -/
def attributesStructText (attributes : List Attribute) : String :=
  (attributes.foldl
    (fun s a => s ++ ("  " ++ attribute_type_string a.type ++ " " ++ a.name ++ ";\n"))
    "struct Attributes \x7b\n") ++ "\x7d;\n"

/-- The `struct Varyings` declaration text built by
`SkCustomMeshSpecification::Make`: each varying, then a dummy
`bool _empty_;` field when the varying list is empty (an empty struct is
illegal). -/
def varyingStructText (varyings : List Varying) : String :=
  (let s := varyings.foldl
    (fun s v => s ++ ("  " ++ varying_type_string v.type ++ " " ++ v.name ++ ";\n"))
    "struct Varyings \x7b\n"
   (if varyings.isEmpty then s ++ "  bool _empty_;\n" else s)) ++ "\x7d;\n"

/-- The full vertex source synthesized by `Make`:
varyings struct + attributes struct + user vertex body. -/
def fullVSText (attributes : List Attribute) (varyings : List Varying) (vs : String) :
    String :=
  varyingStructText varyings ++ attributesStructText attributes ++ vs

/-- The full fragment source synthesized by `Make`:
varyings struct + user fragment body. -/
def fullFSText (varyings : List Varying) (fs : String) : String :=
  varyingStructText varyings ++ fs

/-- `SkCustomMeshSpecification::Make` (the canonical overload): synthesize
the struct declarations, concatenate with the user bodies, and defer to
`makeFromSourceWithStructs`. -/
def make (compiler : Compiler) (attributes : List Attribute) (vertexStride : Nat)
    (varyings : List Varying) (vs fs : String) (cs : Option SkColorSpace)
    (alphaType : SkAlphaType) : Except String Specification :=
  makeFromSourceWithStructs compiler attributes vertexStride varyings
    (fullVSText attributes varyings vs) (fullFSText varyings fs) cs alphaType

/-! ## SkSafeMath, meshes and mesh validation -/

/-- Modelled from the spec: `SkSafeMath` (not under the sources here) is
the overflow-checked `size_t` arithmetic utility: each operation returns
the 64-bit-wrapped result and latches a failure flag on overflow. -/
structure SkSafeMath where
  fOK : Bool
deriving DecidableEq, Repr

def SkSafeMath.mul (sm : SkSafeMath) (x y : Nat) : SkSafeMath × Nat :=
  (⟨sm.fOK && decide (x * y < 2 ^ 64)⟩, x * y % 2 ^ 64)

def SkSafeMath.add (sm : SkSafeMath) (x y : Nat) : SkSafeMath × Nat :=
  (⟨sm.fOK && decide (x + y < 2 ^ 64)⟩, (x + y) % 2 ^ 64)

def SkSafeMath.ok (sm : SkSafeMath) : Bool :=
  sm.fOK

/-- Drawing modes (`SkCustomMesh::Mode`). -/
inductive Mode where
  | kTriangles
  | kTriangleStrip
deriving DecidableEq, Repr

/-- `min_vcount_for_mode`: the minimum element count of each mode. -/
def min_vcount_for_mode : Mode → Nat
  | .kTriangles => 3
  | .kTriangleStrip => 3

/-- A vertex or index buffer handle: this core observes only its byte
length (`size()`). -/
structure Buffer where
  size : Nat
deriving DecidableEq, Repr

/-- Modelled from the spec: `SkRect` bounds are stored but never inspected
by this core; the default-constructed rectangle is all zeroes. -/
structure SkRect where
  left : Int
  top : Int
  right : Int
  bottom : Int
deriving DecidableEq, Repr

/-- An `SkCustomMesh` value: its fields, `Option` for the three
reference-counted pointers. -/
structure SkCustomMesh where
  fSpec : Option Specification
  fMode : Mode
  fVB : Option Buffer
  fVCount : Nat
  fVOffset : Nat
  fIB : Option Buffer
  fICount : Nat
  fIOffset : Nat
  fBounds : SkRect
deriving DecidableEq, Repr

/-- Modelled from the spec: the default-constructed (sentinel) mesh — null
specification, no buffers, zero counts and offsets, default mode and empty
bounds. -/
def SkCustomMesh.sentinel : SkCustomMesh :=
  { fSpec := none
    fMode := .kTriangles
    fVB := none
    fVCount := 0
    fVOffset := 0
    fIB := none
    fICount := 0
    fIOffset := 0
    fBounds := ⟨0, 0, 0, 0⟩ }

/-- `SkCustomMesh::validate`: presence checks, overflow-checked vertex
range, offset alignment to the stride, then the indexed or non-indexed
branch, finishing with the latched overflow flag. -/
def SkCustomMesh.validate (m : SkCustomMesh) : Bool :=
  match m.fSpec with
  | none => false
  | some spec =>
    match m.fVB with
    | none => false
    | some vb =>
      if m.fVCount = 0 then false
      else
        let sm0 : SkSafeMath := ⟨true⟩
        let p1 := sm0.mul spec.stride m.fVCount
        let p2 := p1.1.add p1.2 m.fVOffset
        if p2.2 > vb.size then false
        else if m.fVOffset % spec.stride ≠ 0 then false
        else
          match m.fIB with
          | some ib =>
            if m.fICount < min_vcount_for_mode m.fMode then false
            else
              let p3 := p2.1.mul 2 m.fICount
              let p4 := p3.1.add p3.2 m.fIOffset
              if p4.2 > ib.size then false
              else if m.fIOffset &&& 1 != 0 then false
              else p4.1.ok
          | none =>
            if m.fVCount < min_vcount_for_mode m.fMode then false
            else if m.fICount ≠ 0 ∨ m.fIOffset ≠ 0 then false
            else p2.1.ok

/-- `SkCustomMesh::isValid`: the specification pointer is non-null. -/
def SkCustomMesh.isValid (m : SkCustomMesh) : Bool :=
  m.fSpec.isSome

/-- `SkCustomMesh::Make`: populate a mesh and collapse to the sentinel if
validation fails. -/
def SkCustomMesh.Make (spec : Option Specification) (mode : Mode) (vb : Option Buffer)
    (vertexCount vertexOffset : Nat) (bounds : SkRect) : SkCustomMesh :=
  let cm : SkCustomMesh :=
    { fSpec := spec
      fMode := mode
      fVB := vb
      fVCount := vertexCount
      fVOffset := vertexOffset
      fIB := none
      fICount := 0
      fIOffset := 0
      fBounds := bounds }
  if cm.validate then cm else SkCustomMesh.sentinel

/-- `SkCustomMesh::MakeIndexed`. -/
def SkCustomMesh.MakeIndexed (spec : Option Specification) (mode : Mode)
    (vb : Option Buffer) (vertexCount vertexOffset : Nat) (ib : Option Buffer)
    (indexCount indexOffset : Nat) (bounds : SkRect) : SkCustomMesh :=
  let cm : SkCustomMesh :=
    { fSpec := spec
      fMode := mode
      fVB := vb
      fVCount := vertexCount
      fVOffset := vertexOffset
      fIB := ib
      fICount := indexCount
      fIOffset := indexOffset
      fBounds := bounds }
  if cm.validate then cm else SkCustomMesh.sentinel

/-! ## Theorems about mesh validation -/

lemma if_false_eq_true_iff {c : Prop} [Decidable c] {x : Bool} :
    (if c then false else x) = true ↔ ¬c ∧ x = true := by
  split <;> simp_all

/-- The validity conditions as the spec states them, with unbounded
arithmetic and explicit no-overflow side conditions. -/
def MeshValidSpec (m : SkCustomMesh) : Prop :=
  match m.fSpec, m.fVB with
  | some spec, some vb =>
      m.fVCount ≠ 0 ∧
      spec.stride * m.fVCount + m.fVOffset ≤ vb.size ∧
      spec.stride * m.fVCount < 2 ^ 64 ∧
      spec.stride * m.fVCount + m.fVOffset < 2 ^ 64 ∧
      m.fVOffset % spec.stride = 0 ∧
      (match m.fIB with
       | some ib =>
           3 ≤ m.fICount ∧
           2 * m.fICount + m.fIOffset ≤ ib.size ∧
           2 * m.fICount < 2 ^ 64 ∧
           2 * m.fICount + m.fIOffset < 2 ^ 64 ∧
           m.fIOffset % 2 = 0
       | none =>
           3 ≤ m.fVCount ∧ m.fICount = 0 ∧ m.fIOffset = 0)
  | _, _ => False

/-- **C2.** `SkCustomMesh::validate` succeeds exactly when: the
specification and vertex buffer are present and the vertex count is
non-zero; `stride * vertexCount + vertexOffset ≤ vertexBuffer.size` with
neither step overflowing 64 bits; `vertexOffset` is a multiple of the
stride; with an index buffer, `indexCount ≥ 3` (the mode minimum for both
modes), `2 * indexCount + indexOffset ≤ indexBuffer.size` without
overflow, and `indexOffset` is 2-byte aligned; without one,
`vertexCount ≥ 3` and the index count and offset are zero. -/
theorem C2_validate_iff (m : SkCustomMesh) :
    m.validate = true ↔ MeshValidSpec m := by
  unfold SkCustomMesh.validate MeshValidSpec
  cases hspec : m.fSpec with
  | none => simp
  | some spec =>
    cases hvb : m.fVB with
    | none => simp
    | some vb =>
      dsimp only
      by_cases hvc : m.fVCount = 0
      · simp [hvc]
      · rw [if_neg hvc]
        simp only [SkSafeMath.mul, SkSafeMath.add, SkSafeMath.ok, Bool.true_and]
        by_cases hov1 : spec.stride * m.fVCount < 2 ^ 64
        · rw [Nat.mod_eq_of_lt hov1]
          by_cases hov2 : spec.stride * m.fVCount + m.fVOffset < 2 ^ 64
          · rw [Nat.mod_eq_of_lt hov2]
            cases hib : m.fIB with
            | none =>
              rw [if_false_eq_true_iff, if_false_eq_true_iff, if_false_eq_true_iff,
                if_false_eq_true_iff]
              cases hm : m.fMode <;>
                simp only [min_vcount_for_mode, Nat.and_one_is_mod, bne_iff_ne, ne_eq,
                  not_lt, not_not, not_or, Bool.and_eq_true, decide_eq_true_eq] <;>
                tauto
            | some ib =>
              by_cases hov3 : 2 * m.fICount < 2 ^ 64
              · rw [Nat.mod_eq_of_lt hov3]
                by_cases hov4 : 2 * m.fICount + m.fIOffset < 2 ^ 64
                · rw [Nat.mod_eq_of_lt hov4]
                  rw [if_false_eq_true_iff, if_false_eq_true_iff, if_false_eq_true_iff,
                    if_false_eq_true_iff, if_false_eq_true_iff]
                  cases hm : m.fMode <;>
                    simp only [min_vcount_for_mode, Nat.and_one_is_mod, bne_iff_ne, ne_eq,
                      not_lt, not_not, not_or, Bool.and_eq_true, decide_eq_true_eq] <;>
                    tauto
                · rw [if_false_eq_true_iff, if_false_eq_true_iff, if_false_eq_true_iff,
                    if_false_eq_true_iff, if_false_eq_true_iff]
                  cases hm : m.fMode <;>
                    simp only [min_vcount_for_mode, Nat.and_one_is_mod, bne_iff_ne, ne_eq,
                      not_lt, not_not, not_or, Bool.and_eq_true, decide_eq_true_eq] <;>
                    tauto
              · rw [if_false_eq_true_iff, if_false_eq_true_iff, if_false_eq_true_iff,
                  if_false_eq_true_iff, if_false_eq_true_iff]
                cases hm : m.fMode <;>
                  simp only [min_vcount_for_mode, Nat.and_one_is_mod, bne_iff_ne, ne_eq,
                    not_lt, not_not, not_or, Bool.and_eq_true, decide_eq_true_eq] <;>
                  tauto
          · cases hib : m.fIB with
            | none =>
              rw [if_false_eq_true_iff, if_false_eq_true_iff, if_false_eq_true_iff,
                if_false_eq_true_iff]
              cases hm : m.fMode <;>
                simp only [min_vcount_for_mode, Nat.and_one_is_mod, bne_iff_ne, ne_eq,
                  not_lt, not_not, not_or, Bool.and_eq_true, decide_eq_true_eq] <;>
                tauto
            | some ib =>
              rw [if_false_eq_true_iff, if_false_eq_true_iff, if_false_eq_true_iff,
                if_false_eq_true_iff, if_false_eq_true_iff]
              cases hm : m.fMode <;>
                simp only [min_vcount_for_mode, Nat.and_one_is_mod, bne_iff_ne, ne_eq,
                  not_lt, not_not, not_or, Bool.and_eq_true, decide_eq_true_eq] <;>
                tauto
        · cases hib : m.fIB with
          | none =>
            rw [if_false_eq_true_iff, if_false_eq_true_iff, if_false_eq_true_iff,
              if_false_eq_true_iff]
            cases hm : m.fMode <;>
              simp only [min_vcount_for_mode, Nat.and_one_is_mod, bne_iff_ne, ne_eq,
                not_lt, not_not, not_or, Bool.and_eq_true, decide_eq_true_eq] <;>
              tauto
          | some ib =>
            rw [if_false_eq_true_iff, if_false_eq_true_iff, if_false_eq_true_iff,
              if_false_eq_true_iff, if_false_eq_true_iff]
            cases hm : m.fMode <;>
              simp only [min_vcount_for_mode, Nat.and_one_is_mod, bne_iff_ne, ne_eq,
                not_lt, not_not, not_or, Bool.and_eq_true, decide_eq_true_eq] <;>
              tauto

/-- Witness for C2: a non-indexed Triangles mesh over a 12-byte buffer
with stride 4, three vertices at offset 0, validates, and satisfies the
spec-side conditions. -/
theorem C2_validate_iff_witness :
    MeshValidSpec
      ⟨some (Specification.construct [⟨AttrType.kFloat, 0, "p"⟩] 4 []
          ⟨"v", [], false⟩ ⟨"f", [], false⟩ ColorType.kNone false none .kPremul),
        Mode.kTriangles, some ⟨12⟩, 3, 0, none, 0, 0, ⟨0, 0, 0, 0⟩⟩ :=
  (C2_validate_iff
    ⟨some (Specification.construct [⟨AttrType.kFloat, 0, "p"⟩] 4 []
        ⟨"v", [], false⟩ ⟨"f", [], false⟩ ColorType.kNone false none .kPremul),
      Mode.kTriangles, some ⟨12⟩, 3, 0, none, 0, 0, ⟨0, 0, 0, 0⟩⟩).mp (by decide)

/-! ## The identity hash -/

lemma foldl_hash_of_map_eq (l1 l2 : List Attribute)
    (h : l1.map (fun a => (a.offset, a.type)) = l2.map (fun a => (a.offset, a.type))) :
    ∀ h0 : Nat,
      l1.foldl (fun h a => hash_fn [attrTypeCode a.type] (hash_fn [a.offset] h)) h0 =
        l2.foldl (fun h a => hash_fn [attrTypeCode a.type] (hash_fn [a.offset] h)) h0 := by
  induction l1 generalizing l2 with
  | nil =>
    cases l2 with
    | nil => intro h0; rfl
    | cons b t => exact absurd h (by simp)
  | cons a t ih =>
    cases l2 with
    | nil => exact absurd h (by simp)
    | cons b t2 =>
      simp only [List.map_cons, List.cons.injEq, Prod.mk.injEq] at h
      intro h0
      simp only [List.foldl_cons, h.1.1, h.1.2]
      exact ih t2 h.2 _

/-- **C3.** The Specification identity hash is a pure function of exactly:
the final vertex source, the final fragment source, the attributes'
`(offset, type)` pairs in order, the stride, the color-space hash (zero
when absent) and the alpha-type code — two constructions agreeing on those
inputs (even with different attribute names, varyings, programs
elementwise, color type or local-coords flag) yield identical hashes. -/
theorem C3_hash_pure_function
    (attrs1 attrs2 : List Attribute) (stride1 stride2 : Nat)
    (vars1 vars2 : List Varying) (vs1 vs2 fs1 fs2 : Program)
    (ct1 ct2 : ColorType) (lc1 lc2 : Bool)
    (cs1 cs2 : Option SkColorSpace) (at1 at2 : SkAlphaType)
    (hvs : vs1.source = vs2.source) (hfs : fs1.source = fs2.source)
    (hattrs : attrs1.map (fun a => (a.offset, a.type)) =
      attrs2.map (fun a => (a.offset, a.type)))
    (hstride : stride1 = stride2) (hcs : csHashOf cs1 = csHashOf cs2)
    (hat : alphaTypeCode at1 = alphaTypeCode at2) :
    (Specification.construct attrs1 stride1 vars1 vs1 fs1 ct1 lc1 cs1 at1).hash =
      (Specification.construct attrs2 stride2 vars2 vs2 fs2 ct2 lc2 cs2 at2).hash := by
  unfold Specification.construct specificationHash
  dsimp only
  rw [hvs, hfs, hstride, hcs, hat, foldl_hash_of_map_eq attrs1 attrs2 hattrs]

/-- Witness for C3: renaming an attribute, changing the varyings, and
swapping the recorded programs' elements leaves the hash unchanged when
the six hashed inputs agree. -/
theorem C3_hash_pure_function_witness :
    (Specification.construct [⟨AttrType.kFloat2, 0, "pos"⟩] 8 []
        ⟨"vsrc", [], false⟩ ⟨"fsrc", [], false⟩ ColorType.kNone false none
        SkAlphaType.kPremul).hash =
      (Specification.construct [⟨AttrType.kFloat2, 0, "position"⟩] 8
        [⟨VaryType.kHalf, "v"⟩] ⟨"vsrc", [.otherElement], true⟩ ⟨"fsrc", [], true⟩
        ColorType.kHalf4 true none SkAlphaType.kPremul).hash :=
  C3_hash_pure_function _ _ _ _ _ _ _ _ _ _ _ _ _ _ _ _ _ _
    rfl rfl rfl rfl rfl rfl

/-! ## Fragment-contract extraction -/

lemma get_fs_loop_isSome_of_any (els : List ProgramElement)
    (h : els.any isMainDefn = true) : (get_fs_loop els).isSome = true := by
  induction els with
  | nil => simp at h
  | cons e rest ih =>
    cases e with
    | functionDefn d =>
      by_cases hd : d.isMain = true
      · simp [get_fs_loop, hd]
      · simp only [List.any_cons, isMainDefn, Bool.or_eq_true] at h
        rcases h with h | h
        · exact absurd h hd
        · simpa [get_fs_loop, hd] using ih h
    | otherElement =>
      simp only [List.any_cons, isMainDefn, Bool.false_or] at h
      simpa [get_fs_loop] using ih h

/-- The `SkUNREACHABLE` arm of `get_fs_color_type_and_local_coords` is
dead at its call site: a program with a `main` always extracts. -/
lemma get_fs_some_of_has_main (p : Program) (h : has_main p = true) :
    ∃ r, get_fs_color_type_and_local_coords p = some r := by
  have := get_fs_loop_isSome_of_any p.elements h
  exact Option.isSome_iff_exists.mp this

lemma get_fs_loop_first_main (pre : List ProgramElement) (d : FunctionDecl)
    (post : List ProgramElement) (hpre : ∀ e ∈ pre, isMainDefn e = false)
    (hd : d.isMain = true) :
    get_fs_loop (pre ++ .functionDefn d :: post) =
      some
        ((if d.params.length = 1 then ColorType.kNone
          else if d.params.get? 1 == some .tHalf4 then ColorType.kHalf4
          else ColorType.kFloat4),
         d.returnType == .tFloat2) := by
  induction pre with
  | nil =>
    simp only [List.nil_append]
    unfold get_fs_loop
    rw [if_pos hd]
  | cons e rest ih =>
    have he := hpre e (List.mem_cons_self e rest)
    have hrest := fun x hx => hpre x (List.mem_cons_of_mem e hx)
    cases e with
    | functionDefn d0 =>
      simp only [isMainDefn] at he
      simp only [List.cons_append]
      unfold get_fs_loop
      rw [if_neg (by simp [he])]
      exact ih hrest
    | otherElement =>
      simp only [List.cons_append]
      unfold get_fs_loop
      exact ih hrest

/-- **C5.** For a compiled fragment program whose first `main` definition
is `d` (preceded by no other `main`): extraction returns `ColorType.kNone`
when `d` has exactly one parameter; `kHalf4` when it has two and the
second has type `half4`; `kFloat4` when it has two and the second has type
`float4`; and `hasLocalCoords` is true exactly when the declared return
type is `float2` (in particular false for `void`). -/
theorem C5_fragment_contract (p : Program) (pre : List ProgramElement)
    (d : FunctionDecl) (post : List ProgramElement)
    (hsplit : p.elements = pre ++ .functionDefn d :: post)
    (hpre : ∀ e ∈ pre, isMainDefn e = false) (hd : d.isMain = true) :
    ∃ ct lc, get_fs_color_type_and_local_coords p = some (ct, lc) ∧
      (d.params.length = 1 → ct = ColorType.kNone) ∧
      (d.params.length = 2 → d.params.get? 1 = some .tHalf4 → ct = ColorType.kHalf4) ∧
      (d.params.length = 2 → d.params.get? 1 = some .tFloat4 → ct = ColorType.kFloat4) ∧
      (lc = true ↔ d.returnType = .tFloat2) := by
  refine ⟨(if d.params.length = 1 then ColorType.kNone
           else if d.params.get? 1 == some .tHalf4 then ColorType.kHalf4
           else ColorType.kFloat4),
          d.returnType == .tFloat2, ?_, ?_, ?_, ?_, ?_⟩
  · unfold get_fs_color_type_and_local_coords
    rw [hsplit]
    exact get_fs_loop_first_main pre d post hpre hd
  · intro h1
    rw [if_pos h1]
  · intro h2 hh
    rw [if_neg (by rw [h2]; decide), if_pos (by rw [hh]; rfl)]
  · intro h2 hh
    rw [if_neg (by rw [h2]; decide), if_neg (by rw [hh]; decide)]
  · simp

/-- Witness for C5: a fragment program `float2 main(Varyings v, half4 c)`
extracts `(kHalf4, hasLocalCoords := true)`. -/
theorem C5_fragment_contract_witness :
    ∃ ct lc,
      get_fs_color_type_and_local_coords
          ⟨"fsrc", [.otherElement,
            .functionDefn ⟨"main", [.tOther 0, .tHalf4], .tFloat2⟩], false⟩ =
        some (ct, lc) ∧ ct = ColorType.kHalf4 ∧ lc = true := by
  obtain ⟨ct, lc, heq, -, hhalf4, -, hlc⟩ :=
    C5_fragment_contract
      ⟨"fsrc", [.otherElement, .functionDefn ⟨"main", [.tOther 0, .tHalf4], .tFloat2⟩], false⟩
      [.otherElement] ⟨"main", [.tOther 0, .tHalf4], .tFloat2⟩ [] rfl
      (by intro e he; simp only [List.mem_singleton] at he; subst he; rfl) rfl
  exact ⟨ct, lc, heq, hhalf4 rfl rfl, hlc.mpr rfl⟩

/-! ## Shader-source synthesis -/

lemma join_cons (s : String) (l : List String) :
    String.join (s :: l) = s ++ String.join l := by
  apply String.ext
  simp

lemma foldl_string_append {α : Type} (f : α → String) (l : List α) :
    ∀ init : String,
      l.foldl (fun s x => s ++ f x) init = init ++ String.join (l.map f) := by
  induction l with
  | nil => intro init; simp [String.join]
  | cons a t ih =>
    intro init
    simp only [List.foldl_cons, List.map_cons, join_cons]
    rw [ih (init ++ f a), String.append_assoc]

/-- **C6.** The synthesized vertex source is the varyings struct, then the
attributes struct, then the user vertex body; the synthesized fragment
source is the varyings struct then the user fragment body; the structs
list each entry as `"  <type> <name>;\n"` between a fixed header and
footer, with a dummy `bool _empty_;` field exactly when the varying list
is empty; and `kUByte4_unorm` is spelled with the GPU type `half4` while
every float/half type keeps its own name. -/
theorem C6_synthesized_sources (attributes : List Attribute) (varyings : List Varying)
    (vs fs : String) :
    fullVSText attributes varyings vs =
        varyingStructText varyings ++ attributesStructText attributes ++ vs ∧
    fullFSText varyings fs = varyingStructText varyings ++ fs ∧
    attributesStructText attributes =
      "struct Attributes \x7b\n" ++
        String.join (attributes.map
          (fun a => "  " ++ attribute_type_string a.type ++ " " ++ a.name ++ ";\n")) ++
        "\x7d;\n" ∧
    varyingStructText varyings =
      "struct Varyings \x7b\n" ++
        (String.join (varyings.map
          (fun v => "  " ++ varying_type_string v.type ++ " " ++ v.name ++ ";\n")) ++
          (if varyings = [] then "  bool _empty_;\n" else "")) ++
        "\x7d;\n" ∧
    attribute_type_string .kUByte4_unorm = "half4" ∧
    attribute_type_string .kFloat = "float" ∧
    attribute_type_string .kFloat2 = "float2" ∧
    attribute_type_string .kFloat3 = "float3" ∧
    attribute_type_string .kFloat4 = "float4" ∧
    varying_type_string .kHalf4 = "half4" ∧
    varying_type_string .kFloat2 = "float2" := by
  refine ⟨rfl, rfl, ?_, ?_, rfl, rfl, rfl, rfl, rfl, rfl, rfl⟩
  · unfold attributesStructText
    rw [foldl_string_append
      (fun a : Attribute => "  " ++ attribute_type_string a.type ++ " " ++ a.name ++ ";\n")]
  · unfold varyingStructText
    cases varyings with
    | nil => rfl
    | cons v t =>
      dsimp only
      rw [if_neg (by simp), if_neg (by simp)]
      rw [foldl_string_append
        (fun v : Varying => "  " ++ varying_type_string v.type ++ " " ++ v.name ++ ";\n")]
      simp [String.append_assoc]

/-! ## The construction pipeline: stage order and invariants -/

/-- All stages of `MakeFromSourceWithStructs` before contract extraction
succeed: layout, attribute names, varying count, varying names, both
compiles, both `main` checks, and both intrinsics checks. -/
def FrontEndPasses (compiler : Compiler) (attributes : List Attribute) (stride : Nat)
    (varyings : List Varying) (vs fs : String) (vsP fsP : Program) : Prop :=
  (check_vertex_offsets_and_stride attributes stride).1 = true ∧
  attributes.find? (fun a => !check_name a.name) = none ∧
  varyings.length ≤ kMaxVaryings ∧
  varyings.find? (fun v => !check_name v.name) = none ∧
  compiler.convertProgram .kCustomMeshVertex vs = .ok vsP ∧
  has_main vsP = true ∧ vsP.callsColorTransformIntrinsics = false ∧
  compiler.convertProgram .kCustomMeshFragment fs = .ok fsP ∧
  has_main fsP = true ∧ fsP.callsColorTransformIntrinsics = false

lemma makeFrom_reduce (compiler : Compiler) (attributes : List Attribute) (stride : Nat)
    (varyings : List Varying) (vs fs : String) (cs : Option SkColorSpace)
    (alphaType : SkAlphaType) (vsP fsP : Program)
    (h : FrontEndPasses compiler attributes stride varyings vs fs vsP fsP) :
    makeFromSourceWithStructs compiler attributes stride varyings vs fs cs alphaType =
      match get_fs_color_type_and_local_coords fsP with
      | none => .error "unreachable"
      | some (ct, hasLocalCoords) =>
        if ct = ColorType.kNone then
          .ok (Specification.construct attributes stride varyings vsP fsP ct
                hasLocalCoords none .kPremul)
        else
          match cs with
          | none => .error "Must provide a color space if FS returns a color."
          | some cs0 =>
            if alphaType = SkAlphaType.kUnknown then
              .error "Must provide a valid alpha type if FS returns a color."
            else
              .ok (Specification.construct attributes stride varyings vsP fsP ct
                    hasLocalCoords (some cs0) alphaType) := by
  obtain ⟨h1, h2, h3, h4, h5, h6, h7, h8, h9, h10⟩ := h
  unfold makeFromSourceWithStructs
  rcases hc : check_vertex_offsets_and_stride attributes stride with ⟨b, msg⟩
  rw [hc] at h1
  simp only at h1
  subst h1
  dsimp only
  rw [h2, if_neg (not_lt.mpr h3), h4, h5]
  dsimp only
  rw [h6, h7]
  simp only [Bool.not_true, Bool.false_eq_true, if_false]
  rw [h8]
  dsimp only
  rw [h9, h10]
  simp only [Bool.not_true, Bool.false_eq_true, if_false]

/-- **C4.** A successfully constructed specification with derived
`ColorType.kNone` has no color space and premultiplied alpha regardless of
the caller's arguments, and one with a color output has a color space and
a known alpha type; and when the contract stage is reached with a color
output but a null color space or unknown alpha type, construction fails
with the corresponding message. -/
theorem C4_colorspace_alphatype (compiler : Compiler) (attributes : List Attribute)
    (stride : Nat) (varyings : List Varying) (vs fs : String) (cs : Option SkColorSpace)
    (alphaType : SkAlphaType) :
    (∀ spec,
      makeFromSourceWithStructs compiler attributes stride varyings vs fs cs alphaType =
          .ok spec →
        (spec.colorType = ColorType.kNone →
          spec.colorSpace = none ∧ spec.alphaType = SkAlphaType.kPremul) ∧
        (spec.colorType ≠ ColorType.kNone →
          spec.colorSpace ≠ none ∧ spec.alphaType ≠ SkAlphaType.kUnknown)) ∧
    (∀ vsP fsP ct lc,
      FrontEndPasses compiler attributes stride varyings vs fs vsP fsP →
      get_fs_color_type_and_local_coords fsP = some (ct, lc) →
      ct ≠ ColorType.kNone →
        (cs = none →
          makeFromSourceWithStructs compiler attributes stride varyings vs fs cs alphaType =
            .error "Must provide a color space if FS returns a color.") ∧
        (∀ cs0, cs = some cs0 → alphaType = SkAlphaType.kUnknown →
          makeFromSourceWithStructs compiler attributes stride varyings vs fs cs alphaType =
            .error "Must provide a valid alpha type if FS returns a color.")) := by
  constructor
  · intro spec hok
    unfold makeFromSourceWithStructs at hok
    repeat' split at hok
    all_goals cases hok
    all_goals constructor <;> intro hct <;> simp_all [Specification.construct]
  · intro vsP fsP ct lc hfront hget hct
    rw [makeFrom_reduce compiler attributes stride varyings vs fs cs alphaType vsP fsP hfront,
      hget]
    dsimp only
    rw [if_neg hct]
    constructor
    · intro hcs
      subst hcs
      rfl
    · intro cs0 hcs hat
      subst hcs
      subst hat
      rfl

/-- A compiler oracle whose output for any source is a program with a
one-parameter void `main` and no intrinsics calls. -/
def okCompiler : Compiler :=
  ⟨fun _ src => .ok ⟨src, [.functionDefn ⟨"main", [.tOther 0], .tVoid⟩], false⟩⟩

/-- Witness for C4: a successful construction through `okCompiler` with a
caller-supplied color space and unpremultiplied alpha still ends with no
color space and premultiplied alpha, because the contract is `kNone`. -/
theorem C4_colorspace_alphatype_witness :
    ∃ spec,
      makeFromSourceWithStructs okCompiler [⟨AttrType.kFloat2, 0, "pos"⟩] 8 [] "v" "f"
          (some ⟨5⟩) SkAlphaType.kUnpremul = .ok spec ∧
      spec.colorSpace = none ∧ spec.alphaType = SkAlphaType.kPremul := by
  refine ⟨_, rfl, ?_⟩
  exact ((C4_colorspace_alphatype okCompiler [⟨AttrType.kFloat2, 0, "pos"⟩] 8 [] "v" "f"
    (some ⟨5⟩) SkAlphaType.kUnpremul).1 _ rfl).1 rfl

/-- A compiler oracle that rejects every source. -/
def failCompiler : Compiler :=
  ⟨fun _ _ => .error "compile failed"⟩

/-- Modelled from the spec's stage ordering (§4.5): layout validation,
then name validation of every attribute AND varying name, then
varying-count validation, then the same compilation tail. This follows
the spec's words, for comparison with `makeFromSourceWithStructs` (which
checks the varying count before the varying names). -/
def makeFromSourceSpecOrder (compiler : Compiler) (attributes : List Attribute)
    (stride : Nat) (varyings : List Varying) (vs fs : String)
    (cs : Option SkColorSpace) (alphaType : SkAlphaType) : Except String Specification :=
  match check_vertex_offsets_and_stride attributes stride with
  | (false, error) => .error error
  | (true, _) =>
    match attributes.find? (fun a => !check_name a.name) with
    | some a => .error ("\"" ++ a.name ++ "\" is not a valid attribute name.")
    | none =>
      match varyings.find? (fun v => !check_name v.name) with
      | some v => .error ("\"" ++ v.name ++ "\" is not a valid varying name.")
      | none =>
        if varyings.length > kMaxVaryings then
          .error ("A maximum of " ++ toString kMaxVaryings ++ " varyings is allowed.")
        else
          match compiler.convertProgram .kCustomMeshVertex vs with
          | .error e => .error ("VS: " ++ e)
          | .ok vsProgram =>
            if !has_main vsProgram then
              .error "Vertex shader must have main function."
            else if vsProgram.callsColorTransformIntrinsics then
              .error "Color transform intrinsics are not permitted in custom mesh shaders"
            else
              match compiler.convertProgram .kCustomMeshFragment fs with
              | .error e => .error ("FS: " ++ e)
              | .ok fsProgram =>
                if !has_main fsProgram then
                  .error "Fragment shader must have main function."
                else if fsProgram.callsColorTransformIntrinsics then
                  .error "Color transform intrinsics are not permitted in custom mesh shaders"
                else
                  match get_fs_color_type_and_local_coords fsProgram with
                  | none => .error "unreachable"
                  | some (ct, hasLocalCoords) =>
                    if ct = ColorType.kNone then
                      .ok (Specification.construct attributes stride varyings
                            vsProgram fsProgram ct hasLocalCoords none .kPremul)
                    else
                      match cs with
                      | none => .error "Must provide a color space if FS returns a color."
                      | some cs0 =>
                        if alphaType = SkAlphaType.kUnknown then
                          .error "Must provide a valid alpha type if FS returns a color."
                        else
                          .ok (Specification.construct attributes stride varyings
                                vsProgram fsProgram ct hasLocalCoords (some cs0) alphaType)

/-- **C7 counterexample.** With a valid layout, seven varyings (over the
maximum of six) all named `"bad name"` (invalid), the implementation
reports the varying-count error while the spec's stage order (names before
count) would report the naming error: the claimed order does not match the
code. -/
theorem C7_counterexample :
    makeFromSourceWithStructs failCompiler [⟨AttrType.kFloat, 0, "a"⟩] 4
        (List.replicate 7 ⟨VaryType.kFloat, "bad name"⟩) "v" "f" none SkAlphaType.kPremul =
      .error "A maximum of 6 varyings is allowed." ∧
    makeFromSourceSpecOrder failCompiler [⟨AttrType.kFloat, 0, "a"⟩] 4
        (List.replicate 7 ⟨VaryType.kFloat, "bad name"⟩) "v" "f" none SkAlphaType.kPremul =
      .error "\"bad name\" is not a valid varying name." ∧
    makeFromSourceWithStructs failCompiler [⟨AttrType.kFloat, 0, "a"⟩] 4
        (List.replicate 7 ⟨VaryType.kFloat, "bad name"⟩) "v" "f" none SkAlphaType.kPremul ≠
      makeFromSourceSpecOrder failCompiler [⟨AttrType.kFloat, 0, "a"⟩] 4
        (List.replicate 7 ⟨VaryType.kFloat, "bad name"⟩) "v" "f" none SkAlphaType.kPremul := by
  refine ⟨rfl, rfl, ?_⟩
  intro h
  have h1 : makeFromSourceWithStructs failCompiler [⟨AttrType.kFloat, 0, "a"⟩] 4
      (List.replicate 7 ⟨VaryType.kFloat, "bad name"⟩) "v" "f" none SkAlphaType.kPremul =
      .error "A maximum of 6 varyings is allowed." := rfl
  have h2 : makeFromSourceSpecOrder failCompiler [⟨AttrType.kFloat, 0, "a"⟩] 4
      (List.replicate 7 ⟨VaryType.kFloat, "bad name"⟩) "v" "f" none SkAlphaType.kPremul =
      .error "\"bad name\" is not a valid varying name." := rfl
  rw [h1, h2] at h
  simp only [Except.error.injEq] at h
  exact absurd h (by decide)

/-- **C7 (amended).** Construction stages run in this order, the first
failure determining the error: layout validation, attribute-name
validation, varying-count validation, varying-name validation, vertex
compile, vertex `main` check, vertex intrinsics check, fragment compile,
fragment `main` check, fragment intrinsics check, then contract
extraction. (Struct-text synthesis is a pure, failure-free step performed
up front in `Make`; all name checks still precede every compiler
invocation.) -/
theorem C7_stage_order (compiler : Compiler) (attributes : List Attribute) (stride : Nat)
    (varyings : List Varying) (vs fs : String) (cs : Option SkColorSpace)
    (alphaType : SkAlphaType) :
    ((check_vertex_offsets_and_stride attributes stride).1 = false →
      makeFromSourceWithStructs compiler attributes stride varyings vs fs cs alphaType =
        .error (check_vertex_offsets_and_stride attributes stride).2) ∧
    ((check_vertex_offsets_and_stride attributes stride).1 = true →
      ∀ a, attributes.find? (fun a => !check_name a.name) = some a →
      makeFromSourceWithStructs compiler attributes stride varyings vs fs cs alphaType =
        .error ("\"" ++ a.name ++ "\" is not a valid attribute name.")) ∧
    ((check_vertex_offsets_and_stride attributes stride).1 = true →
      attributes.find? (fun a => !check_name a.name) = none →
      varyings.length > kMaxVaryings →
      makeFromSourceWithStructs compiler attributes stride varyings vs fs cs alphaType =
        .error "A maximum of 6 varyings is allowed.") ∧
    ((check_vertex_offsets_and_stride attributes stride).1 = true →
      attributes.find? (fun a => !check_name a.name) = none →
      varyings.length ≤ kMaxVaryings →
      ∀ v, varyings.find? (fun v => !check_name v.name) = some v →
      makeFromSourceWithStructs compiler attributes stride varyings vs fs cs alphaType =
        .error ("\"" ++ v.name ++ "\" is not a valid varying name.")) ∧
    ((check_vertex_offsets_and_stride attributes stride).1 = true →
      attributes.find? (fun a => !check_name a.name) = none →
      varyings.length ≤ kMaxVaryings →
      varyings.find? (fun v => !check_name v.name) = none →
      ∀ e, compiler.convertProgram .kCustomMeshVertex vs = .error e →
      makeFromSourceWithStructs compiler attributes stride varyings vs fs cs alphaType =
        .error ("VS: " ++ e)) ∧
    ((check_vertex_offsets_and_stride attributes stride).1 = true →
      attributes.find? (fun a => !check_name a.name) = none →
      varyings.length ≤ kMaxVaryings →
      varyings.find? (fun v => !check_name v.name) = none →
      ∀ vsP, compiler.convertProgram .kCustomMeshVertex vs = .ok vsP →
      (has_main vsP = false →
        makeFromSourceWithStructs compiler attributes stride varyings vs fs cs alphaType =
          .error "Vertex shader must have main function.") ∧
      (has_main vsP = true → vsP.callsColorTransformIntrinsics = true →
        makeFromSourceWithStructs compiler attributes stride varyings vs fs cs alphaType =
          .error "Color transform intrinsics are not permitted in custom mesh shaders") ∧
      (has_main vsP = true → vsP.callsColorTransformIntrinsics = false →
        ∀ e, compiler.convertProgram .kCustomMeshFragment fs = .error e →
        makeFromSourceWithStructs compiler attributes stride varyings vs fs cs alphaType =
          .error ("FS: " ++ e)) ∧
      (has_main vsP = true → vsP.callsColorTransformIntrinsics = false →
        ∀ fsP, compiler.convertProgram .kCustomMeshFragment fs = .ok fsP →
        (has_main fsP = false →
          makeFromSourceWithStructs compiler attributes stride varyings vs fs cs alphaType =
            .error "Fragment shader must have main function.") ∧
        (has_main fsP = true → fsP.callsColorTransformIntrinsics = true →
          makeFromSourceWithStructs compiler attributes stride varyings vs fs cs alphaType =
            .error "Color transform intrinsics are not permitted in custom mesh shaders") ∧
        (has_main fsP = true → fsP.callsColorTransformIntrinsics = false →
          ∀ ct lc, get_fs_color_type_and_local_coords fsP = some (ct, lc) →
          ct = ColorType.kNone →
          makeFromSourceWithStructs compiler attributes stride varyings vs fs cs alphaType =
            .ok (Specification.construct attributes stride varyings vsP fsP ct lc
                  none .kPremul)))) := by
  refine ⟨?_, ?_, ?_, ?_, ?_, ?_⟩
  · intro hfail
    rcases hc : check_vertex_offsets_and_stride attributes stride with ⟨b, msg⟩
    rw [hc] at hfail
    simp only at hfail
    subst hfail
    unfold makeFromSourceWithStructs
    rw [hc]
  · intro hok a hfind
    rcases hc : check_vertex_offsets_and_stride attributes stride with ⟨b, msg⟩
    rw [hc] at hok
    simp only at hok
    subst hok
    unfold makeFromSourceWithStructs
    rw [hc]
    dsimp only
    simp only [hfind]
  · intro hok hfind hcount
    rcases hc : check_vertex_offsets_and_stride attributes stride with ⟨b, msg⟩
    rw [hc] at hok
    simp only at hok
    subst hok
    unfold makeFromSourceWithStructs
    rw [hc]
    dsimp only
    simp only [hfind]
    rw [if_pos hcount]
    rfl
  · intro hok hfind hcount v hvfind
    rcases hc : check_vertex_offsets_and_stride attributes stride with ⟨b, msg⟩
    rw [hc] at hok
    simp only at hok
    subst hok
    unfold makeFromSourceWithStructs
    rw [hc]
    dsimp only
    simp only [hfind, eq_false (not_lt.mpr hcount), if_false, hvfind]
  · intro hok hfind hcount hvfind e hvs
    rcases hc : check_vertex_offsets_and_stride attributes stride with ⟨b, msg⟩
    rw [hc] at hok
    simp only at hok
    subst hok
    unfold makeFromSourceWithStructs
    rw [hc]
    dsimp only
    simp only [hfind, eq_false (not_lt.mpr hcount), if_false, hvfind, hvs]
  · intro hok hfind hcount hvfind vsP hvs
    refine ⟨?_, ?_, ?_, ?_⟩
    · intro hnomain
      rcases hc : check_vertex_offsets_and_stride attributes stride with ⟨b, msg⟩
      rw [hc] at hok
      simp only at hok
      subst hok
      unfold makeFromSourceWithStructs
      rw [hc]
      dsimp only
      simp only [hfind, eq_false (not_lt.mpr hcount), if_false, hvfind, hvs, hnomain,
        Bool.not_false, if_true]
    · intro hmain hintr
      rcases hc : check_vertex_offsets_and_stride attributes stride with ⟨b, msg⟩
      rw [hc] at hok
      simp only at hok
      subst hok
      unfold makeFromSourceWithStructs
      rw [hc]
      dsimp only
      simp only [hfind, eq_false (not_lt.mpr hcount), if_false, hvfind, hvs, hmain, hintr,
        Bool.not_true, Bool.false_eq_true, if_false, if_true]
    · intro hmain hintr e hfs
      rcases hc : check_vertex_offsets_and_stride attributes stride with ⟨b, msg⟩
      rw [hc] at hok
      simp only at hok
      subst hok
      unfold makeFromSourceWithStructs
      rw [hc]
      dsimp only
      simp only [hfind, eq_false (not_lt.mpr hcount), if_false, hvfind, hvs, hmain, hintr,
        Bool.not_true, Bool.false_eq_true, hfs]
    · intro hmain hintr fsP hfs
      refine ⟨?_, ?_, ?_⟩
      · intro hnomain
        rcases hc : check_vertex_offsets_and_stride attributes stride with ⟨b, msg⟩
        rw [hc] at hok
        simp only at hok
        subst hok
        unfold makeFromSourceWithStructs
        rw [hc]
        dsimp only
        simp only [hfind, eq_false (not_lt.mpr hcount), if_false, hvfind, hvs, hmain, hintr,
          Bool.not_true, Bool.false_eq_true, hfs, hnomain, Bool.not_false, if_true]
      · intro hfmain hfintr
        rcases hc : check_vertex_offsets_and_stride attributes stride with ⟨b, msg⟩
        rw [hc] at hok
        simp only at hok
        subst hok
        unfold makeFromSourceWithStructs
        rw [hc]
        dsimp only
        simp only [hfind, eq_false (not_lt.mpr hcount), if_false, hvfind, hvs, hmain, hintr,
          Bool.not_true, Bool.false_eq_true, hfs, hfmain, hfintr, if_true]
      · intro hfmain hfintr ct lc hget hctnone
        rcases hc : check_vertex_offsets_and_stride attributes stride with ⟨b, msg⟩
        rw [hc] at hok
        simp only at hok
        subst hok
        unfold makeFromSourceWithStructs
        rw [hc]
        dsimp only
        simp only [hfind, eq_false (not_lt.mpr hcount), if_false, hvfind, hvs, hmain, hintr,
          Bool.not_true, Bool.false_eq_true, hfs, hfmain, hfintr, hget, hctnone, if_true]

/-- Witness for C7 (amended): an empty attribute list makes the layout
stage fail first, and construction reports exactly its message. -/
theorem C7_stage_order_witness :
    makeFromSourceWithStructs failCompiler [] 4 [] "v" "f" none SkAlphaType.kPremul =
      .error "At least 1 attribute is required." :=
  (C7_stage_order failCompiler [] 4 [] "v" "f" none SkAlphaType.kPremul).1 rfl

/-- **C8 counterexample.** An input whose attribute list contains the
invalid name `"bad name"` but whose stride is 0 is rejected with the
layout (stride) message, not a naming-error message: the claim's "returns
… with a naming-error message" does not hold for every bad-name input. -/
theorem C8_counterexample :
    check_name "bad name" = false ∧
    makeFromSourceWithStructs failCompiler [⟨AttrType.kFloat, 0, "bad name"⟩] 0 [] "v" "f"
        none SkAlphaType.kPremul =
      .error "Vertex stride must be a non-zero multiple of 4." ∧
    ("Vertex stride must be a non-zero multiple of 4." : String) ≠
      "\"bad name\" is not a valid attribute name." := by
  refine ⟨by decide, rfl, by decide⟩

/-- **C8 (amended).** Any input whose attribute or varying name list
contains an invalid name is rejected: construction returns a null
specification (an error), the result is identical for every compiler (no
compiler invocation can influence it), and the message is a naming-error
message whenever no earlier rule (layout validation; for varying names
also the varying-count bound) fails first. -/
theorem C8_bad_name_rejected (c1 c2 : Compiler) (attributes : List Attribute) (stride : Nat)
    (varyings : List Varying) (vs fs : String) (cs : Option SkColorSpace)
    (alphaType : SkAlphaType)
    (hbad : (∃ a ∈ attributes, check_name a.name = false) ∨
            (∃ v ∈ varyings, check_name v.name = false)) :
    (∃ msg, makeFromSourceWithStructs c1 attributes stride varyings vs fs cs alphaType =
      .error msg) ∧
    makeFromSourceWithStructs c1 attributes stride varyings vs fs cs alphaType =
      makeFromSourceWithStructs c2 attributes stride varyings vs fs cs alphaType ∧
    ((check_vertex_offsets_and_stride attributes stride).1 = true →
      varyings.length ≤ kMaxVaryings →
      ∃ name, check_name name = false ∧
        (makeFromSourceWithStructs c1 attributes stride varyings vs fs cs alphaType =
          .error ("\"" ++ name ++ "\" is not a valid attribute name.") ∨
         makeFromSourceWithStructs c1 attributes stride varyings vs fs cs alphaType =
          .error ("\"" ++ name ++ "\" is not a valid varying name."))) := by
  rcases hc : check_vertex_offsets_and_stride attributes stride with ⟨b, msg⟩
  cases b with
  | false =>
    have hres : ∀ c : Compiler,
        makeFromSourceWithStructs c attributes stride varyings vs fs cs alphaType =
          .error msg := by
      intro c
      unfold makeFromSourceWithStructs
      rw [hc]
    refine ⟨⟨msg, hres c1⟩, by rw [hres c1, hres c2], ?_⟩
    intro hok
    simp at hok
  | true =>
    rcases hfa : attributes.find? (fun a => !check_name a.name) with _ | a1
    · have hallattr : ∀ a ∈ attributes, check_name a.name = true := by
        intro a ha
        have := List.find?_eq_none.mp hfa a ha
        simpa using this
      have hbadv : ∃ v ∈ varyings, check_name v.name = false := by
        rcases hbad with ⟨a, ha, hbad⟩ | h
        · rw [hallattr a ha] at hbad
          cases hbad
        · exact h
      by_cases hcv : varyings.length > kMaxVaryings
      · have hres : ∀ c : Compiler,
            makeFromSourceWithStructs c attributes stride varyings vs fs cs alphaType =
              .error "A maximum of 6 varyings is allowed." := by
          intro c
          unfold makeFromSourceWithStructs
          rw [hc]
          dsimp only
          simp only [hfa]
          rw [if_pos hcv]
          rfl
        refine ⟨⟨_, hres c1⟩, by rw [hres c1, hres c2], ?_⟩
        intro _ hcount
        exact absurd hcv (not_lt.mpr hcount)
      · rcases hfv : varyings.find? (fun v => !check_name v.name) with _ | v1
        · exfalso
          obtain ⟨v, hv, hvbad⟩ := hbadv
          have := List.find?_eq_none.mp hfv v hv
          rw [hvbad] at this
          simp at this
        · have hres : ∀ c : Compiler,
              makeFromSourceWithStructs c attributes stride varyings vs fs cs alphaType =
                .error ("\"" ++ v1.name ++ "\" is not a valid varying name.") := by
            intro c
            unfold makeFromSourceWithStructs
            rw [hc]
            dsimp only
            simp only [hfa, eq_false hcv, if_false, hfv]
          have hv1 : check_name v1.name = false := by
            have := List.find?_some hfv
            simpa using this
          refine ⟨⟨_, hres c1⟩, by rw [hres c1, hres c2], ?_⟩
          intro _ _
          exact ⟨v1.name, hv1, Or.inr (hres c1)⟩
    · have hres : ∀ c : Compiler,
          makeFromSourceWithStructs c attributes stride varyings vs fs cs alphaType =
            .error ("\"" ++ a1.name ++ "\" is not a valid attribute name.") := by
        intro c
        unfold makeFromSourceWithStructs
        rw [hc]
        dsimp only
        simp only [hfa]
      have ha1 : check_name a1.name = false := by
        have := List.find?_some hfa
        simpa using this
      refine ⟨⟨_, hres c1⟩, by rw [hres c1, hres c2], ?_⟩
      intro _ _
      exact ⟨a1.name, ha1, Or.inl (hres c1)⟩

/-- Witness for C8 (amended): a single invalid varying name produces the
same rejection under a compiler that fails everything and one that
compiles everything. -/
theorem C8_bad_name_rejected_witness :
    makeFromSourceWithStructs failCompiler [⟨AttrType.kFloat, 0, "p"⟩] 4
        [⟨VaryType.kFloat, "bad name"⟩] "v" "f" none SkAlphaType.kPremul =
      makeFromSourceWithStructs okCompiler [⟨AttrType.kFloat, 0, "p"⟩] 4
        [⟨VaryType.kFloat, "bad name"⟩] "v" "f" none SkAlphaType.kPremul :=
  (C8_bad_name_rejected failCompiler okCompiler [⟨AttrType.kFloat, 0, "p"⟩] 4
    [⟨VaryType.kFloat, "bad name"⟩] "v" "f" none SkAlphaType.kPremul
    (Or.inr ⟨⟨VaryType.kFloat, "bad name"⟩, by decide, by decide⟩)).2.1

lemma validate_isSome (m : SkCustomMesh) (h : m.validate = true) :
    m.fSpec.isSome = true := by
  unfold SkCustomMesh.validate at h
  cases hs : m.fSpec with
  | none => rw [hs] at h; cases h
  | some spec => rfl

/-- **C9.** `Make` and `MakeIndexed` always return a mesh value: the fully
populated mesh when it validates, and the default-constructed sentinel
(null specification, no buffers, zero counts and offsets) otherwise; hence
every returned mesh either validates or is exactly the sentinel, and
`isValid` agrees with `validate` on every returned mesh (the sentinel
itself being invalid). -/
theorem C9_mesh_factories (spec : Option Specification) (mode : Mode) (vb : Option Buffer)
    (vertexCount vertexOffset : Nat) (ib : Option Buffer) (indexCount indexOffset : Nat)
    (bounds : SkRect) :
    ((⟨spec, mode, vb, vertexCount, vertexOffset, none, 0, 0, bounds⟩ :
        SkCustomMesh).validate = true →
      SkCustomMesh.Make spec mode vb vertexCount vertexOffset bounds =
        ⟨spec, mode, vb, vertexCount, vertexOffset, none, 0, 0, bounds⟩) ∧
    ((⟨spec, mode, vb, vertexCount, vertexOffset, none, 0, 0, bounds⟩ :
        SkCustomMesh).validate = false →
      SkCustomMesh.Make spec mode vb vertexCount vertexOffset bounds =
        SkCustomMesh.sentinel) ∧
    ((⟨spec, mode, vb, vertexCount, vertexOffset, ib, indexCount, indexOffset, bounds⟩ :
        SkCustomMesh).validate = true →
      SkCustomMesh.MakeIndexed spec mode vb vertexCount vertexOffset ib indexCount
          indexOffset bounds =
        ⟨spec, mode, vb, vertexCount, vertexOffset, ib, indexCount, indexOffset, bounds⟩) ∧
    ((⟨spec, mode, vb, vertexCount, vertexOffset, ib, indexCount, indexOffset, bounds⟩ :
        SkCustomMesh).validate = false →
      SkCustomMesh.MakeIndexed spec mode vb vertexCount vertexOffset ib indexCount
          indexOffset bounds = SkCustomMesh.sentinel) ∧
    ((SkCustomMesh.Make spec mode vb vertexCount vertexOffset bounds).validate = true ∨
      SkCustomMesh.Make spec mode vb vertexCount vertexOffset bounds =
        SkCustomMesh.sentinel) ∧
    ((SkCustomMesh.MakeIndexed spec mode vb vertexCount vertexOffset ib indexCount
        indexOffset bounds).validate = true ∨
      SkCustomMesh.MakeIndexed spec mode vb vertexCount vertexOffset ib indexCount
        indexOffset bounds = SkCustomMesh.sentinel) ∧
    (SkCustomMesh.Make spec mode vb vertexCount vertexOffset bounds).isValid =
      (SkCustomMesh.Make spec mode vb vertexCount vertexOffset bounds).validate ∧
    (SkCustomMesh.MakeIndexed spec mode vb vertexCount vertexOffset ib indexCount
        indexOffset bounds).isValid =
      (SkCustomMesh.MakeIndexed spec mode vb vertexCount vertexOffset ib indexCount
        indexOffset bounds).validate ∧
    SkCustomMesh.sentinel.validate = false ∧
    SkCustomMesh.sentinel.isValid = false := by
  have hMake : SkCustomMesh.Make spec mode vb vertexCount vertexOffset bounds =
      (if (⟨spec, mode, vb, vertexCount, vertexOffset, none, 0, 0, bounds⟩ :
            SkCustomMesh).validate = true then
        (⟨spec, mode, vb, vertexCount, vertexOffset, none, 0, 0, bounds⟩ : SkCustomMesh)
      else SkCustomMesh.sentinel) := rfl
  have hMakeI : SkCustomMesh.MakeIndexed spec mode vb vertexCount vertexOffset ib
      indexCount indexOffset bounds =
      (if (⟨spec, mode, vb, vertexCount, vertexOffset, ib, indexCount, indexOffset,
            bounds⟩ : SkCustomMesh).validate = true then
        (⟨spec, mode, vb, vertexCount, vertexOffset, ib, indexCount, indexOffset,
          bounds⟩ : SkCustomMesh)
      else SkCustomMesh.sentinel) := rfl
  refine ⟨?_, ?_, ?_, ?_, ?_, ?_, ?_, ?_, rfl, rfl⟩
  · intro h
    rw [hMake, if_pos h]
  · intro h
    rw [hMake, if_neg (by rw [h]; exact Bool.false_ne_true)]
  · intro h
    rw [hMakeI, if_pos h]
  · intro h
    rw [hMakeI, if_neg (by rw [h]; exact Bool.false_ne_true)]
  · rw [hMake]
    split
    · next h => exact Or.inl h
    · exact Or.inr rfl
  · rw [hMakeI]
    split
    · next h => exact Or.inl h
    · exact Or.inr rfl
  · rw [hMake]
    split
    · next h =>
      rw [h]
      exact validate_isSome _ h
    · rfl
  · rw [hMakeI]
    split
    · next h =>
      rw [h]
      exact validate_isSome _ h
    · rfl

/-- Witness for C9: a 12-byte vertex buffer, stride 4, three vertices at
offset 0 — the factory returns the populated mesh, and it is valid. -/
theorem C9_mesh_factories_witness :
    SkCustomMesh.Make
        (some (Specification.construct [⟨AttrType.kFloat, 0, "p"⟩] 4 []
          ⟨"v", [], false⟩ ⟨"f", [], false⟩ ColorType.kNone false none .kPremul))
        Mode.kTriangles (some ⟨12⟩) 3 0 ⟨0, 0, 0, 0⟩ =
      ⟨some (Specification.construct [⟨AttrType.kFloat, 0, "p"⟩] 4 []
          ⟨"v", [], false⟩ ⟨"f", [], false⟩ ColorType.kNone false none .kPremul),
        Mode.kTriangles, some ⟨12⟩, 3, 0, none, 0, 0, ⟨0, 0, 0, 0⟩⟩ :=
  (C9_mesh_factories
    (some (Specification.construct [⟨AttrType.kFloat, 0, "p"⟩] 4 []
      ⟨"v", [], false⟩ ⟨"f", [], false⟩ ColorType.kNone false none .kPremul))
    Mode.kTriangles (some ⟨12⟩) 3 0 none 0 0 ⟨0, 0, 0, 0⟩).1 (by decide)

lemma check_true_stride_ne_zero (attributes : List Attribute) (stride : Nat)
    (h : (check_vertex_offsets_and_stride attributes stride).1 = true) : stride ≠ 0 := by
  intro hz
  subst hz
  unfold check_vertex_offsets_and_stride at h
  by_cases he : attributes.isEmpty = true
  · rw [if_pos he] at h
    cases h
  · rw [if_neg he] at h
    by_cases hcnt : attributes.length > kMaxAttributes
    · rw [if_pos hcnt] at h
      cases h
    · rw [if_neg hcnt, if_pos (by decide)] at h
      cases h

lemma makeFrom_ok_layout (compiler : Compiler) (attributes : List Attribute) (stride : Nat)
    (varyings : List Varying) (vs fs : String) (cs : Option SkColorSpace)
    (alphaType : SkAlphaType) (spec : Specification)
    (hok : makeFromSourceWithStructs compiler attributes stride varyings vs fs cs alphaType =
      .ok spec) :
    (check_vertex_offsets_and_stride attributes stride).1 = true ∧ spec.stride = stride := by
  unfold makeFromSourceWithStructs at hok
  rcases hc : check_vertex_offsets_and_stride attributes stride with ⟨b, msg⟩
  rw [hc] at hok
  cases b with
  | false => cases hok
  | true =>
    refine ⟨rfl, ?_⟩
    repeat' split at hok
    all_goals cases hok
    all_goals rfl

/-- **C10.** Every specification produced by construction has a non-zero
stride (layout validation rejects a zero stride), so the
`vertexOffset % stride` computation inside `SkCustomMesh::validate` never
divides by zero for a mesh carrying a constructed specification — in
particular for every mesh built by `Make`/`MakeIndexed` from one. -/
theorem C10_stride_nonzero (compiler : Compiler) (attributes : List Attribute)
    (stride : Nat) (varyings : List Varying) (vs fs : String) (cs : Option SkColorSpace)
    (alphaType : SkAlphaType) (spec : Specification)
    (hok : makeFromSourceWithStructs compiler attributes stride varyings vs fs cs alphaType =
      .ok spec) :
    spec.stride ≠ 0 ∧
    (∀ mode vb vertexCount vertexOffset bounds s2,
      (SkCustomMesh.Make (some spec) mode vb vertexCount vertexOffset bounds).fSpec =
        some s2 → s2.stride ≠ 0) ∧
    (∀ mode vb vertexCount vertexOffset ib indexCount indexOffset bounds s2,
      (SkCustomMesh.MakeIndexed (some spec) mode vb vertexCount vertexOffset ib indexCount
        indexOffset bounds).fSpec = some s2 → s2.stride ≠ 0) := by
  obtain ⟨hcheck, hstride⟩ :=
    makeFrom_ok_layout compiler attributes stride varyings vs fs cs alphaType spec hok
  have hnz : spec.stride ≠ 0 := by
    rw [hstride]
    exact check_true_stride_ne_zero attributes stride hcheck
  refine ⟨hnz, ?_, ?_⟩
  · intro mode vb vertexCount vertexOffset bounds s2 hs2
    have hM : SkCustomMesh.Make (some spec) mode vb vertexCount vertexOffset bounds =
        (if (⟨some spec, mode, vb, vertexCount, vertexOffset, none, 0, 0, bounds⟩ :
              SkCustomMesh).validate = true then
          (⟨some spec, mode, vb, vertexCount, vertexOffset, none, 0, 0, bounds⟩ :
            SkCustomMesh)
        else SkCustomMesh.sentinel) := rfl
    rw [hM] at hs2
    split at hs2
    · cases hs2
      exact hnz
    · simp [SkCustomMesh.sentinel] at hs2
  · intro mode vb vertexCount vertexOffset ib indexCount indexOffset bounds s2 hs2
    have hM : SkCustomMesh.MakeIndexed (some spec) mode vb vertexCount vertexOffset ib
        indexCount indexOffset bounds =
        (if (⟨some spec, mode, vb, vertexCount, vertexOffset, ib, indexCount, indexOffset,
              bounds⟩ : SkCustomMesh).validate = true then
          (⟨some spec, mode, vb, vertexCount, vertexOffset, ib, indexCount, indexOffset,
            bounds⟩ : SkCustomMesh)
        else SkCustomMesh.sentinel) := rfl
    rw [hM] at hs2
    split at hs2
    · cases hs2
      exact hnz
    · simp [SkCustomMesh.sentinel] at hs2

/-- Witness for C10: the concrete specification built by `okCompiler`
with stride 4 indeed has a non-zero stride. -/
theorem C10_stride_nonzero_witness :
    ∃ spec,
      makeFromSourceWithStructs okCompiler [⟨AttrType.kFloat, 0, "p"⟩] 4 [] "v" "f" none
          SkAlphaType.kPremul = .ok spec ∧ spec.stride ≠ 0 :=
  ⟨_, rfl,
    (C10_stride_nonzero okCompiler [⟨AttrType.kFloat, 0, "p"⟩] 4 [] "v" "f" none
      SkAlphaType.kPremul _ rfl).1⟩

end SkCM
